import Mathlib

/-!
# CFB Loyalty Index — verification of the scoring/aggregation core

Shallow embedding of `src/scoring/transferProbability.js` (the Scorer) and
`src/data/aggregate.js` (the Aggregator) of the CFB-Loyalty-Index repository.

JavaScript numbers are modelled as `JSNum`: either `nan` (the result of a
failed numeric conversion, e.g. `Number("abc")`) or an exact rational.
Nullish JS values (`null`/`undefined`) are modelled by `Option`:
`none` stands for an absent/null field, `some JSNum.nan` for a present but
malformed (non-numeric) value, and `some (JSNum.num q)` for a numeric value.
-/

/-- A JavaScript number: NaN or a (here: exact rational) numeric value. -/
inductive JSNum where
  | nan : JSNum
  | num : ℚ → JSNum
deriving DecidableEq, Repr

namespace JSNum

/-- JS addition: NaN-propagating. -/
def jadd : JSNum → JSNum → JSNum
  | num a, num b => num (a + b)
  | _, _ => nan

/-- JS subtraction: NaN-propagating. -/
def jsub : JSNum → JSNum → JSNum
  | num a, num b => num (a - b)
  | _, _ => nan

/-- JS multiplication: NaN-propagating. -/
def jmul : JSNum → JSNum → JSNum
  | num a, num b => num (a * b)
  | _, _ => nan

/-- JS division, NaN-propagating. Division by zero is modelled as `nan`;
every division in the embedded code is guarded so this case is unreachable. -/
def jdiv : JSNum → JSNum → JSNum
  | num a, num b => if b = 0 then nan else num (a / b)
  | _, _ => nan

/-- `Math.min`: returns NaN if either argument is NaN. -/
def jmin : JSNum → JSNum → JSNum
  | num a, num b => num (min a b)
  | _, _ => nan

/-- `Math.max`: returns NaN if either argument is NaN. -/
def jmax : JSNum → JSNum → JSNum
  | num a, num b => num (max a b)
  | _, _ => nan

/-- JS `>` comparison: false when either operand is NaN. -/
def jgt : JSNum → JSNum → Bool
  | num a, num b => b < a
  | _, _ => false

/-- JS truthiness of a number: NaN and 0 are falsy. -/
def jtruthy : JSNum → Bool
  | num a => a ≠ 0
  | nan => false

/-- `Math.round`: round half up (`⌊x + 1/2⌋`), NaN-propagating. -/
def jround : JSNum → JSNum
  | num a => num ((⌊a + 1/2⌋ : ℤ) : ℚ)
  | nan => nan

/-- `Math.round(x * 10) / 10` — round to 1 decimal as the source does. -/
def jround1 (x : JSNum) : JSNum := jdiv (jround (jmul x (num 10))) (num 10)

/-- `Math.round(x * 100) / 100` — round to 2 decimals as the source does. -/
def jround2 (x : JSNum) : JSNum := jdiv (jround (jmul x (num 100))) (num 100)

theorem jadd_num_zero_right (s : JSNum) : jadd s (num 0) = s := by
  cases s <;> simp [jadd]

theorem jadd_num_zero_left (s : JSNum) : jadd (num 0) s = s := by
  cases s <;> simp [jadd]

theorem jadd_assoc (a b c : JSNum) : jadd (jadd a b) c = jadd a (jadd b c) := by
  cases a <;> cases b <;> cases c <;> simp [jadd, add_assoc]

end JSNum

namespace CFB

open JSNum

/-!
## Scorer: `src/scoring/transferProbability.js`

A weights object (`DEFAULT_WEIGHTS`, `input.weights`, the explicit `weights`
argument) is modelled as a total function from keys to
`Option (Option JSNum)`: the outer `Option` is key presence (what spread
`{...a, ...b}` consults), the inner one distinguishes a nullish value from a
number/NaN.
-/

/-- A JS object used as a weights map. -/
def WeightObj : Type := String → Option (Option JSNum)

/-- The empty object `{}` (also stands for an absent `weights` field, since
spreading `undefined` adds no keys). -/
def emptyWeights : WeightObj := fun _ => none

/-- `DEFAULT_WEIGHTS` from the source. -/
def DEFAULT_WEIGHTS : WeightObj := fun k =>
  match k with
  | "playingTime" => some (some (num (22/100)))
  | "distanceFromHome" => some (some (num (15/100)))
  | "recruitingRank" => some (some (num (18/100)))
  | "teamPerformance" => some (some (num (15/100)))
  | "nilCollectives" => some (some (num (10/100)))
  | "snapsPlayed" => some (some (num (12/100)))
  | "socialSentiment" => some (some (num (8/100)))
  | _ => none

/-- One object-spread step: `{...a, ...b}` — a key present in `b` wins. -/
def mergeSpread (a b : WeightObj) : WeightObj := fun k =>
  match b k with
  | some v => some v
  | none => a k

/-- Line 107 of the source: `const w = { ...DEFAULT_WEIGHTS, ...input.weights, ...weights }`. -/
def resolveWeights (inputWeights argWeights : WeightObj) : WeightObj :=
  mergeSpread (mergeSpread DEFAULT_WEIGHTS inputWeights) argWeights

/-- `w[key]` on a weights object: absent keys read as `undefined` (nullish). -/
def lookupW (w : WeightObj) (k : String) : Option JSNum := (w k).join

/-- `normalize(value, min, max)` from the source: nullish or NaN input yields
the neutral 0.5, otherwise clamp to `[mn, mx]` and scale linearly
(denominator `max - min || 1`). -/
def normalize (value : Option JSNum) (mn mx : ℚ) : JSNum :=
  match value with
  | none => num (1/2)
  | some nan => num (1/2)
  | some (num q) =>
    let v := max mn (min mx q)
    num ((v - mn) / (if mx - mn = 0 then 1 else mx - mn))

/-- `riskFromPlayingTime`: `1 - clamp(usage, 0, 1)`; nullish → 0.5.
A NaN usage propagates (the clamp and subtraction are NaN-propagating). -/
def riskFromPlayingTime (usage : Option JSNum) : JSNum :=
  match usage with
  | none => num (1/2)
  | some u => jsub (num 1) (jmax (num 0) (jmin (num 1) u))

/-- `riskFromDistance`: `normalize(max(0, miles), 0, 1500)`; nullish → 0.5. -/
def riskFromDistance (miles : Option JSNum) : JSNum :=
  match miles with
  | none => num (1/2)
  | some m => normalize (some (jmax (num 0) m)) 0 1500

/-- `riskFromRecruiting`: `clamp(rank,0,1) * (1 - clampedUsage)` with the
usage falling back to 0.5 when nullish; nullish rank → 0.5. -/
def riskFromRecruiting (recruitingRankNormalized playingTimeNormalized : Option JSNum) : JSNum :=
  match recruitingRankNormalized with
  | none => num (1/2)
  | some r =>
    let rank := jmax (num 0) (jmin (num 1) r)
    let usage :=
      match playingTimeNormalized with
      | some u => jmax (num 0) (jmin (num 1) u)
      | none => num (1/2)
    jmul rank (jsub (num 1) usage)

/-- `riskFromTeamPerformance`: `1 - clamp(winRate, 0, 1)`; nullish → 0.5. -/
def riskFromTeamPerformance (winRate : Option JSNum) : JSNum :=
  match winRate with
  | none => num (1/2)
  | some w => jsub (num 1) (jmax (num 0) (jmin (num 1) w))

/-- `riskFromNIL`: `1 - clamp(nilScore, 0, 1)`; nullish → 0.5. -/
def riskFromNIL (nilScore : Option JSNum) : JSNum :=
  match nilScore with
  | none => num (1/2)
  | some n => jsub (num 1) (jmax (num 0) (jmin (num 1) n))

/-- `riskFromSnaps`: `1 - normalize(max(0, snaps), 0, 800)`; nullish → 0.5. -/
def riskFromSnaps (snaps : Option JSNum) : JSNum :=
  match snaps with
  | none => num (1/2)
  | some s => jsub (num 1) (normalize (some (jmax (num 0) s)) 0 800)

/-- `riskFromSocial`: `clamp(sentiment, 0, 1)`; nullish → 0.5. -/
def riskFromSocial (sentiment : Option JSNum) : JSNum :=
  match sentiment with
  | none => num (1/2)
  | some v => jmax (num 0) (jmin (num 1) v)

/-- The signal record passed to `computeTransferProbability`. All fields
optional; `weights` models the embedded `input.weights` object. -/
structure SignalInput where
  playingTime : Option JSNum := none
  distanceFromHighSchoolMiles : Option JSNum := none
  recruitingRank : Option JSNum := none
  teamWinRate : Option JSNum := none
  nilScore : Option JSNum := none
  snapsPlayed : Option JSNum := none
  socialSentiment : Option JSNum := none
  weights : WeightObj := emptyWeights

/-- One breakdown entry: `{ risk, weight, contribution }`. -/
structure BreakdownEntry where
  risk : JSNum
  weight : JSNum
  contribution : JSNum
deriving DecidableEq, Repr

/-- The result record `{ probability, breakdown, factors }`; the two JS
objects keep the source's fixed insertion order as association lists. -/
structure ScoreResult where
  probability : JSNum
  breakdown : List (String × BreakdownEntry)
  factors : List (String × JSNum)
deriving DecidableEq, Repr

/-- Loop body of the accumulation over `Object.entries(factors)`:
`if (weight != null && weight > 0) { totalWeight += weight; weightedSum += weight * risk }`. -/
def stepFold (w : WeightObj) (acc : JSNum × JSNum) (p : String × JSNum) : JSNum × JSNum :=
  match lookupW w p.1 with
  | some wv => if jgt wv (num 0) then (jadd acc.1 wv, jadd acc.2 (jmul wv p.2)) else acc
  | none => acc

/-- The `factors` object of `computeTransferProbability` (source lines
109–130): the seven named per-factor risks, in insertion order, including
the pre-normalization of `recruitingRank` (`<= 1` kept, else `/ 100`). -/
def factorList (input : SignalInput) : List (String × JSNum) :=
  let playingTime := input.playingTime
  let recruitingNorm : Option JSNum :=
    match input.recruitingRank with
    | none => none
    | some nan => some nan
    | some (num q) => some (num (if q ≤ 1 then q else q / 100))
  let rPlaying := riskFromPlayingTime playingTime
  let rDistance := riskFromDistance input.distanceFromHighSchoolMiles
  let rRecruiting := riskFromRecruiting recruitingNorm playingTime
  let rTeam := riskFromTeamPerformance input.teamWinRate
  let rNIL := riskFromNIL input.nilScore
  let rSnaps := riskFromSnaps input.snapsPlayed
  let rSocial := riskFromSocial input.socialSentiment
  [("playingTime", rPlaying), ("distanceFromHome", rDistance),
   ("recruitingRank", rRecruiting), ("teamPerformance", rTeam),
   ("nilCollectives", rNIL), ("snapsPlayed", rSnaps),
   ("socialSentiment", rSocial)]

/-- Body of `computeTransferProbability` after the weights object `w` has
been resolved (source lines 109–153). -/
def computeWith (input : SignalInput) (w : WeightObj) : ScoreResult :=
  let factors := factorList input
  let acc := factors.foldl (stepFold w) (num 0, num 0)
  let totalWeight := acc.1
  let weightedSum := acc.2
  let probability :=
    if jgt totalWeight (num 0) then jmul (jdiv weightedSum totalWeight) (num 100) else num 50
  let breakdown := factors.map (fun p =>
    (p.1, { risk := jround2 p.2,
            weight := (lookupW w p.1).getD (num 0),
            contribution := jround2 (jmul ((lookupW w p.1).getD (num 0)) p.2) : BreakdownEntry }))
  { probability := jround1 probability, breakdown := breakdown, factors := factors }

/-- `computeTransferProbability(input, weights)` from the source. -/
def computeTransferProbability (input : SignalInput) (weights : WeightObj) : ScoreResult :=
  computeWith input (resolveWeights input.weights weights)

/-- The seven factor keys, in the source's insertion order. -/
def factorNames : List String :=
  ["playingTime", "distanceFromHome", "recruitingRank", "teamPerformance",
   "nilCollectives", "snapsPlayed", "socialSentiment"]

/-- A risk value that is an actual number in the unit interval. -/
def unitRisk (j : JSNum) : Prop := ∃ r : ℚ, j = num r ∧ 0 ≤ r ∧ r ≤ 1

theorem jmul_nan_left (x : JSNum) : jmul nan x = nan := by cases x <;> rfl

theorem clamp01_nonneg (q : ℚ) : 0 ≤ max 0 (min 1 q) := le_max_left 0 _

theorem clamp01_le_one (q : ℚ) : max 0 (min 1 q) ≤ 1 :=
  max_le (by norm_num) (min_le_left 1 q)

theorem unitRisk_half : unitRisk (num (1/2)) := ⟨1/2, rfl, by norm_num, by norm_num⟩

theorem unitRisk_one_sub {x : ℚ} (h0 : 0 ≤ x) (h1 : x ≤ 1) : unitRisk (num (1 - x)) :=
  ⟨1 - x, rfl, by linarith, by linarith⟩

theorem div_clamp_mem (m c : ℚ) (hc : 0 < c) :
    0 ≤ max 0 (min c m) / c ∧ max 0 (min c m) / c ≤ 1 :=
  ⟨div_nonneg (le_max_left _ _) hc.le,
   (div_le_one hc).2 (max_le hc.le (min_le_left _ _))⟩

/-- C2. The empty signal record `{}` with no weight overrides scores the pure
neutral baseline: probability exactly 50, every factor risk 0.5, and every
breakdown weight equal to its built-in default. -/
theorem claim2_empty_input_neutral :
    computeTransferProbability {} emptyWeights =
      { probability := num 50,
        breakdown :=
          [("playingTime", ⟨num (1/2), num (22/100), num (11/100)⟩),
           ("distanceFromHome", ⟨num (1/2), num (15/100), num (8/100)⟩),
           ("recruitingRank", ⟨num (1/2), num (18/100), num (9/100)⟩),
           ("teamPerformance", ⟨num (1/2), num (15/100), num (8/100)⟩),
           ("nilCollectives", ⟨num (1/2), num (10/100), num (5/100)⟩),
           ("snapsPlayed", ⟨num (1/2), num (12/100), num (6/100)⟩),
           ("socialSentiment", ⟨num (1/2), num (8/100), num (4/100)⟩)],
        factors :=
          [("playingTime", num (1/2)), ("distanceFromHome", num (1/2)),
           ("recruitingRank", num (1/2)), ("teamPerformance", num (1/2)),
           ("nilCollectives", num (1/2)), ("snapsPlayed", num (1/2)),
           ("socialSentiment", num (1/2))] } := by
  with_unfolding_all decide

/-- C1, counterexample. A malformed (NaN) `playingTime` is NOT treated as
absent: its factor risk is NaN rather than the neutral 0.5, and the NaN
poisons the whole probability (NaN, not the 50 an all-neutral record gives),
so the other factors are not "computed normally" into the final result. -/
theorem claim1_cex_nan_not_neutral :
    (computeTransferProbability {playingTime := some nan} emptyWeights).factors.head? =
      some ("playingTime", nan)
    ∧ (nan ≠ num (1/2))
    ∧ (computeTransferProbability {playingTime := some nan} emptyWeights).probability = nan
    ∧ (computeTransferProbability {playingTime := none} emptyWeights).probability = num 50 := by
  refine ⟨?_, ?_, ?_, ?_⟩ <;> with_unfolding_all decide

/-- C1, amended. `computeTransferProbability` is a total function (the
embedding returns a result for every input, mirroring the absence of any
throw in the source), and a malformed (NaN) value degrades to the neutral
0.5 only for `distanceFromHighSchoolMiles` and `snapsPlayed` (whose risk
functions route through `normalize`, which catches NaN); for the other five
factors a NaN signal makes that factor's risk NaN, which then propagates
into the weighted sum and the returned probability. -/
theorem claim1_amended_nan_behaviour (i : SignalInput) (wArg : WeightObj) (u : Option JSNum) :
    computeTransferProbability {i with distanceFromHighSchoolMiles := some nan} wArg
      = computeTransferProbability {i with distanceFromHighSchoolMiles := none} wArg
    ∧ computeTransferProbability {i with snapsPlayed := some nan} wArg
      = computeTransferProbability {i with snapsPlayed := none} wArg
    ∧ riskFromPlayingTime (some nan) = nan
    ∧ riskFromRecruiting (some nan) u = nan
    ∧ riskFromTeamPerformance (some nan) = nan
    ∧ riskFromNIL (some nan) = nan
    ∧ riskFromSocial (some nan) = nan := by
  refine ⟨?_, ?_, rfl, ?_, rfl, rfl, rfl⟩
  · have hd : riskFromDistance (some nan) = riskFromDistance none := rfl
    simp [computeTransferProbability, computeWith, factorList, hd]
  · have hs : riskFromSnaps (some nan) = riskFromSnaps none := by with_unfolding_all decide
    simp [computeTransferProbability, computeWith, factorList, hs]
  · simp [riskFromRecruiting, jmin, jmax, jmul_nan_left]

/-- C3. On every numeric-or-absent signal value each of the seven per-factor
risk functions returns a numeric risk in [0,1], and clamping holds at and
beyond the saturation bounds: distance 10000 gives risk exactly 1 and
nilScore -5 gives risk exactly 1. -/
theorem claim3_risks_in_unit_interval (v u : Option ℚ) :
    unitRisk (riskFromPlayingTime (v.map num))
    ∧ unitRisk (riskFromDistance (v.map num))
    ∧ unitRisk (riskFromRecruiting (v.map num) (u.map num))
    ∧ unitRisk (riskFromTeamPerformance (v.map num))
    ∧ unitRisk (riskFromNIL (v.map num))
    ∧ unitRisk (riskFromSnaps (v.map num))
    ∧ unitRisk (riskFromSocial (v.map num))
    ∧ riskFromDistance (some (num 10000)) = num 1
    ∧ riskFromNIL (some (num (-5))) = num 1 := by
  refine ⟨?_, ?_, ?_, ?_, ?_, ?_, ?_, by with_unfolding_all decide, by with_unfolding_all decide⟩
  · rcases v with _ | q
    · exact unitRisk_half
    · simpa [riskFromPlayingTime, jsub, jmax, jmin] using
        unitRisk_one_sub (clamp01_nonneg q) (clamp01_le_one q)
  · rcases v with _ | q
    · exact unitRisk_half
    · have h := div_clamp_mem (max 0 q) 1500 (by norm_num)
      refine ⟨max 0 (min 1500 (max 0 q)) / 1500, ?_, h.1, h.2⟩
      simp [riskFromDistance, normalize, jmax, jmin]
  · rcases v with _ | q
    · exact unitRisk_half
    · have hrank0 := clamp01_nonneg q
      have hrank1 := clamp01_le_one q
      rcases u with _ | p
      · refine ⟨max 0 (min 1 q) * (1 - 1/2), ?_, ?_, ?_⟩
        · simp [riskFromRecruiting, jmax, jmin, jmul, jsub]
        · positivity
        · nlinarith
      · have hp0 := clamp01_nonneg p
        have hp1 := clamp01_le_one p
        refine ⟨max 0 (min 1 q) * (1 - max 0 (min 1 p)), ?_, ?_, ?_⟩
        · simp [riskFromRecruiting, jmax, jmin, jmul, jsub]
        · have : (0:ℚ) ≤ 1 - max 0 (min 1 p) := by linarith
          positivity
        · nlinarith
  · rcases v with _ | q
    · exact unitRisk_half
    · simpa [riskFromTeamPerformance, jsub, jmax, jmin] using
        unitRisk_one_sub (clamp01_nonneg q) (clamp01_le_one q)
  · rcases v with _ | q
    · exact unitRisk_half
    · simpa [riskFromNIL, jsub, jmax, jmin] using
        unitRisk_one_sub (clamp01_nonneg q) (clamp01_le_one q)
  · rcases v with _ | q
    · exact unitRisk_half
    · have h := div_clamp_mem (max 0 q) 800 (by norm_num)
      refine ⟨1 - max 0 (min 800 (max 0 q)) / 800, ?_, by linarith [h.2], by linarith [h.1]⟩
      simp [riskFromSnaps, normalize, jmax, jmin, jsub]
  · rcases v with _ | q
    · exact unitRisk_half
    · exact ⟨max 0 (min 1 q), by simp [riskFromSocial, jmax, jmin], clamp01_nonneg q, clamp01_le_one q⟩

/-!
### C4: weight resolution precedence
-/

/-- Modelled from the spec's words ("built-in defaults, overridden by any
`weights` field embedded in the signal record, overridden again by an
explicit second weights argument — later sources win per-key"): a per-key
resolution where the explicit argument wins, then the embedded weights,
then the default; absent keys keep the earlier source's value. -/
def weightPrecedenceSpec (inputWeights argWeights : WeightObj) : WeightObj := fun k =>
  match argWeights k with
  | some v => some v
  | none =>
    match inputWeights k with
    | some v => some v
    | none => DEFAULT_WEIGHTS k

/-- C4. The weights object used by `computeTransferProbability` resolves
per key with later sources winning (defaults < record's embedded `weights`
< explicit argument), and consequently scoring with the explicit argument
is the same as scoring a record whose embedded weights are the per-key
resolution and passing no explicit override. -/
theorem claim4_weight_precedence (i : SignalInput) (wArg : WeightObj) :
    (∀ k, resolveWeights i.weights wArg k = weightPrecedenceSpec i.weights wArg k)
    ∧ computeTransferProbability i wArg
      = computeTransferProbability
          {i with weights := weightPrecedenceSpec i.weights wArg} emptyWeights := by
  constructor
  · intro k
    cases h1 : wArg k <;> cases h2 : i.weights k <;>
      simp [resolveWeights, mergeSpread, weightPrecedenceSpec, h1, h2]
  · have hres : resolveWeights (weightPrecedenceSpec i.weights wArg) emptyWeights
        = resolveWeights i.weights wArg := by
      funext k
      cases h1 : wArg k <;> cases h2 : i.weights k <;>
        simp [resolveWeights, mergeSpread, weightPrecedenceSpec, emptyWeights, h1, h2]
      cases DEFAULT_WEIGHTS k <;> rfl
    show computeWith i (resolveWeights i.weights wArg)
      = computeWith {i with weights := weightPrecedenceSpec i.weights wArg}
          (resolveWeights (weightPrecedenceSpec i.weights wArg) emptyWeights)
    rw [hres]
    rfl

/-!
### C5: the combination formula
-/

/-- The strictly positive numeric effective weight of a key, if any
(`weight != null && weight > 0` in the source's accumulation loop). -/
def posW (w : WeightObj) (k : String) : Option ℚ :=
  match lookupW w k with
  | some (num q) => if 0 < q then some q else none
  | _ => none

/-- Spec-side total weight: the sum of the strictly positive effective
weights of the listed factors (zero, negative, NaN and absent weights
contribute nothing). -/
def specTotalWeight (w : WeightObj) (l : List (String × JSNum)) : ℚ :=
  (l.filterMap (fun p => posW w p.1)).sum

/-- Spec-side weighted risk sum over the factors with strictly positive
effective weight. -/
def specWeightedSum (w : WeightObj) (l : List (String × JSNum)) : JSNum :=
  l.foldr (fun p acc =>
    match posW w p.1 with
    | some q => jadd (jmul (num q) p.2) acc
    | none => acc) (num 0)

theorem foldl_stepFold (w : WeightObj) (l : List (String × JSNum)) (a : ℚ) (s : JSNum) :
    l.foldl (stepFold w) (num a, s)
      = (num (a + specTotalWeight w l), jadd s (specWeightedSum w l)) := by
  induction l generalizing a s with
  | nil => simp [specTotalWeight, specWeightedSum, jadd_num_zero_right]
  | cons p l ih =>
    cases hk : lookupW w p.1 with
    | none =>
      have hpos : posW w p.1 = none := by simp [posW, hk]
      have hstep : stepFold w (num a, s) p = (num a, s) := by simp [stepFold, hk]
      rw [List.foldl_cons, hstep, ih]
      simp [specTotalWeight, specWeightedSum, List.filterMap_cons, hpos]
    | some wv =>
      cases wv with
      | nan =>
        have hpos : posW w p.1 = none := by simp [posW, hk]
        have hstep : stepFold w (num a, s) p = (num a, s) := by simp [stepFold, hk, jgt]
        rw [List.foldl_cons, hstep, ih]
        simp [specTotalWeight, specWeightedSum, List.filterMap_cons, hpos]
      | num q =>
        by_cases hq : 0 < q
        · have hpos : posW w p.1 = some q := by simp [posW, hk, hq]
          have hstep : stepFold w (num a, s) p
              = (num (a + q), jadd s (jmul (num q) p.2)) := by
            simp [stepFold, hk, jgt, hq, jadd]
          have h2 : specTotalWeight w (p :: l) = q + specTotalWeight w l := by
            simp [specTotalWeight, List.filterMap_cons, hpos]
          have h3 : specWeightedSum w (p :: l)
              = jadd (jmul (num q) p.2) (specWeightedSum w l) := by
            simp [specWeightedSum, hpos]
          rw [List.foldl_cons, hstep, ih, h2, h3, ← add_assoc, ← jadd_assoc]
        · have hpos : posW w p.1 = none := by simp [posW, hk, hq]
          have hstep : stepFold w (num a, s) p = (num a, s) := by
            simp [stepFold, hk, jgt, hq]
          rw [List.foldl_cons, hstep, ih]
          simp [specTotalWeight, specWeightedSum, List.filterMap_cons, hpos]

theorem probability_formula_general (w : WeightObj) (l : List (String × JSNum)) :
    jround1 (if jgt (l.foldl (stepFold w) (num 0, num 0)).1 (num 0)
             then jmul (jdiv (l.foldl (stepFold w) (num 0, num 0)).2
                             (l.foldl (stepFold w) (num 0, num 0)).1) (num 100)
             else num 50)
    = if 0 < specTotalWeight w l
      then jround1 (jmul (jdiv (specWeightedSum w l) (num (specTotalWeight w l))) (num 100))
      else num 50 := by
  have h50 : jround1 (num 50) = num 50 := by with_unfolding_all decide
  rw [foldl_stepFold]
  simp only [zero_add, jadd_num_zero_left]
  by_cases h : 0 < specTotalWeight w l
  · simp [jgt, h]
  · simp [jgt, h, h50]

/-- C5. The returned probability is `round1(100 * weightedSum/totalWeight)`
where both sums range over exactly the factors with strictly positive
effective weight, and is exactly 50 when no factor carries positive
weight. -/
theorem claim5_probability_formula (i : SignalInput) (wArg : WeightObj) :
    (computeTransferProbability i wArg).probability =
      (if 0 < specTotalWeight (resolveWeights i.weights wArg)
              (computeTransferProbability i wArg).factors
       then jround1 (jmul
              (jdiv (specWeightedSum (resolveWeights i.weights wArg)
                      (computeTransferProbability i wArg).factors)
                    (num (specTotalWeight (resolveWeights i.weights wArg)
                      (computeTransferProbability i wArg).factors)))
              (num 100))
       else num 50) := by
  simp only [computeTransferProbability, computeWith]
  exact probability_formula_general (resolveWeights i.weights wArg) _

/-!
### C6: the recruiting-rank risk
-/

/-- `clamp(x, 0, 1)` — `Math.max(0, Math.min(1, x))`. -/
def clamp01 (q : ℚ) : ℚ := max 0 (min 1 q)

theorem recruiting_lookup (i : SignalInput) (wArg : WeightObj) (rank : ℚ) (pt : Option ℚ) :
    ((computeTransferProbability
        {i with recruitingRank := some (num rank), playingTime := pt.map num}
        wArg).factors.lookup "recruitingRank")
      = some (num (clamp01 (if rank ≤ 1 then rank else rank / 100) *
          (1 - (match pt with | none => (1:ℚ)/2 | some p => clamp01 p)))) := by
  rcases pt with _ | p <;>
    simp [computeTransferProbability, computeWith, factorList, riskFromRecruiting,
      jmax, jmin, jmul, jsub, clamp01, List.lookup]

/-- C6, counterexample. For `recruitingRank = 150` with `playingTime`
absent, the code clamps the normalized rank `150/100 = 1.5` to 1 and
returns risk `1 × (1 − 0.5) = 0.5`, while the claim's formula (normalized
rank times `1 − 0.5`, with no clamp) would give `1.5 × 0.5 = 0.75`. -/
theorem claim6_cex_unclamped_rank :
    ((computeTransferProbability {recruitingRank := some (num 150)} emptyWeights).factors.lookup
        "recruitingRank") = some (num (1/2))
    ∧ ((150:ℚ)/100) * (1 - 1/2) ≠ 1/2 := by
  constructor
  · with_unfolding_all decide
  · norm_num

/-- C6, amended. The recruiting risk is
`clamp01(normalizedRank) × (1 − normalizedPlayingTime)` where
`normalizedRank` is the raw rank if ≤ 1, else the raw rank / 100, then
clamped to [0,1]; `normalizedPlayingTime` is `clamp01(playingTime)` when
present and 0.5 when absent. Consequently ranks 100 and 1.0 yield the
identical recruiting risk for identical playingTime. -/
theorem claim6_amended_recruiting_formula (i : SignalInput) (wArg : WeightObj)
    (rank : ℚ) (pt : Option ℚ) :
    ((computeTransferProbability
        {i with recruitingRank := some (num rank), playingTime := pt.map num}
        wArg).factors.lookup "recruitingRank")
      = some (num (clamp01 (if rank ≤ 1 then rank else rank / 100) *
          (1 - (match pt with | none => (1:ℚ)/2 | some p => clamp01 p))))
    ∧ ((computeTransferProbability
        {i with recruitingRank := some (num 100), playingTime := pt.map num}
        wArg).factors.lookup "recruitingRank")
      = ((computeTransferProbability
        {i with recruitingRank := some (num 1), playingTime := pt.map num}
        wArg).factors.lookup "recruitingRank") := by
  refine ⟨recruiting_lookup i wArg rank pt, ?_⟩
  rw [recruiting_lookup i wArg 100 pt, recruiting_lookup i wArg 1 pt]
  norm_num

/-!
### C7: breakdown shape
-/

/-- A concrete weights object giving `playingTime` the explicit weight 0. -/
def zeroPlayingTimeW : WeightObj := fun k =>
  if k = "playingTime" then some (some (num 0)) else none

/-- C7, counterexample. With a malformed (NaN) `playingTime` signal and an
explicit weight of 0 for that factor, the breakdown entry reports weight 0
but contribution `round2(0 × NaN) = NaN`, not the 0 the claim promises for
zero-weight factors. -/
theorem claim7_cex_zero_weight_nan_contribution :
    (computeTransferProbability
        {playingTime := some nan, weights := zeroPlayingTimeW} emptyWeights).breakdown.head?
      = some ("playingTime", ⟨nan, num 0, nan⟩)
    ∧ (nan : JSNum) ≠ num 0 := by
  constructor
  · with_unfolding_all decide
  · with_unfolding_all decide

/-- C7, amended. The breakdown always carries exactly the seven named
factors, in order, each entry holding the factor's risk rounded to 2
decimals, its effective weight (0 when nullish/absent), and
`round2(weight × risk)` as contribution; for a zero-weight factor the
contribution is 0 whenever the factor's risk is numeric (a NaN risk makes
the reported risk and contribution NaN). -/
theorem claim7_amended_breakdown_shape (i : SignalInput) (wArg : WeightObj) :
    (computeTransferProbability i wArg).breakdown
      = (computeTransferProbability i wArg).factors.map (fun p =>
          (p.1, ⟨jround2 p.2,
                 (lookupW (resolveWeights i.weights wArg) p.1).getD (num 0),
                 jround2 (jmul ((lookupW (resolveWeights i.weights wArg) p.1).getD (num 0))
                   p.2)⟩))
    ∧ (computeTransferProbability i wArg).breakdown.map Prod.fst = factorNames
    ∧ ∀ r : ℚ, jround2 (jmul (num 0) (num r)) = num 0 := by
  refine ⟨rfl, rfl, ?_⟩
  intro r
  have : jmul (num 0) (num r) = num 0 := by simp [jmul]
  rw [this]
  with_unfolding_all decide

/-!
### C10: non-factor weight keys are inert
-/

theorem foldl_stepFold_congr (w w2 : WeightObj) (l : List (String × JSNum))
    (h : ∀ p ∈ l, lookupW w p.1 = lookupW w2 p.1) (acc : JSNum × JSNum) :
    l.foldl (stepFold w) acc = l.foldl (stepFold w2) acc := by
  induction l generalizing acc with
  | nil => rfl
  | cons p l ih =>
    rw [List.foldl_cons, List.foldl_cons,
      show stepFold w acc p = stepFold w2 acc p by
        simp [stepFold, h p (List.mem_cons_self p l)]]
    exact ih (fun q hq => h q (List.mem_cons_of_mem p hq)) _

theorem factorList_keys (i : SignalInput) : (factorList i).map Prod.fst = factorNames := rfl

theorem computeWith_congrW (i : SignalInput) (w w2 : WeightObj)
    (h : ∀ k ∈ factorNames, lookupW w k = lookupW w2 k) :
    computeWith i w = computeWith i w2 := by
  have hL : ∀ p ∈ factorList i, lookupW w p.1 = lookupW w2 p.1 := by
    intro p hp
    refine h p.1 ?_
    rw [← factorList_keys i]
    exact List.mem_map_of_mem Prod.fst hp
  simp only [computeWith]
  rw [foldl_stepFold_congr w w2 (factorList i) hL]
  congr 1
  exact List.map_congr_left (fun p hp => by simp only [hL p hp])

/-- C10. Entries of the embedded or explicit weight maps living under keys
other than the seven factor names have no effect: if two embedded maps and
two explicit maps agree on the seven factor keys, the scoring results are
identical — and the breakdown's keys are always exactly the seven factor
names, so foreign keys never appear in it. -/
theorem claim10_nonfactor_keys_inert (i : SignalInput) (wE wE2 wA wA2 : WeightObj)
    (hE : ∀ k ∈ factorNames, wE k = wE2 k) (hA : ∀ k ∈ factorNames, wA k = wA2 k) :
    computeTransferProbability {i with weights := wE} wA
      = computeTransferProbability {i with weights := wE2} wA2
    ∧ (computeTransferProbability {i with weights := wE} wA).breakdown.map Prod.fst
      = factorNames := by
  have hres : ∀ k ∈ factorNames,
      lookupW (resolveWeights wE wA) k = lookupW (resolveWeights wE2 wA2) k := by
    intro k hk
    simp [lookupW, resolveWeights, mergeSpread, hA k hk, hE k hk]
  constructor
  · calc computeTransferProbability {i with weights := wE} wA
        = computeWith {i with weights := wE} (resolveWeights wE wA) := rfl
      _ = computeWith {i with weights := wE} (resolveWeights wE2 wA2) :=
          computeWith_congrW _ _ _ hres
      _ = computeTransferProbability {i with weights := wE2} wA2 := rfl
  · rfl

/-- Concrete embedded weight map holding only a non-factor key. -/
def junkEmbeddedW : WeightObj := fun k =>
  if k = "junkKey" then some (some (num 3)) else none

/-- Concrete explicit weight map holding only a non-factor key. -/
def bogusArgW : WeightObj := fun k =>
  if k = "bogusKey" then some (some (num 5)) else none

theorem claim10_witness :
    (∀ k ∈ factorNames, junkEmbeddedW k = emptyWeights k)
    ∧ (∀ k ∈ factorNames, bogusArgW k = emptyWeights k)
    ∧ computeTransferProbability {weights := junkEmbeddedW} bogusArgW
      = computeTransferProbability {weights := emptyWeights} emptyWeights
    ∧ (computeTransferProbability {weights := junkEmbeddedW} bogusArgW).breakdown.map Prod.fst
      = factorNames := by
  have hE : ∀ k ∈ factorNames, junkEmbeddedW k = emptyWeights k := by
    with_unfolding_all decide
  have hA : ∀ k ∈ factorNames, bogusArgW k = emptyWeights k := by
    with_unfolding_all decide
  have h := claim10_nonfactor_keys_inert {} junkEmbeddedW emptyWeights bogusArgW emptyWeights hE hA
  exact ⟨hE, hA, h.1, h.2⟩

/-!
## Aggregator: `src/data/aggregate.js`

The remote CFBD fetches are modelled as data: an `Api` value holds the lists
the five read operations would return for the (year, team / name) of the
call. A fetch that fails is indistinguishable from an empty result in the
source (`.catch(() => [])`), so a failed source is modelled by `[]`.
Loosely-typed API records are modelled as structures with one optional
field per key the source probes.
-/

/-- JS truthiness of an optional string: `undefined`/`null`/`''` are falsy. -/
def strTruthy : Option String → Bool
  | some s => s ≠ ""
  | none => false

/-- `!team || !String(team).trim()`: absent, empty or whitespace-only. -/
def strBlank : Option String → Bool
  | some s => s.trim = ""
  | none => true

/-- `a || b` on two optional strings: the first truthy (nonempty) one,
collapsed to `none` when both are falsy. -/
def firstTruthy (a b : Option String) : Option String :=
  if strTruthy a then a else if strTruthy b then b else none

/-- `s.includes(sub)` — substring test (true for the empty needle). -/
def containsSubstr (s sub : String) : Bool :=
  (List.range (s.data.length + 1)).any (fun i => sub.data.isPrefixOf (s.data.drop i))

/-- The value a `pickNum` probe accepts: present and non-NaN. -/
def numOf : Option JSNum → Option ℚ
  | some (num q) => some q
  | _ => none

/-- `pickNum(obj, k1, k2)` from the source: the first key whose value is
non-null and numeric (non-NaN). -/
def pickNum2 (a b : Option JSNum) : Option ℚ :=
  (numOf a).orElse (fun _ => numOf b)

/-- `pickNum` over three keys. -/
def pickNum3 (a b c : Option JSNum) : Option ℚ :=
  (numOf a).orElse (fun _ => pickNum2 b c)

/-- `pickNum` over four keys. -/
def pickNum4 (a b c d : Option JSNum) : Option ℚ :=
  (numOf a).orElse (fun _ => pickNum3 b c d)

/-- The value a `pickStr` probe accepts: present with nonempty trim; the
source returns the trimmed string. -/
def strOf : Option String → Option String
  | some s => if s.trim = "" then none else some s.trim
  | none => none

/-- `pickStr(obj, k1, k2)` from the source. -/
def pickStr2 (a b : Option String) : Option String :=
  (strOf a).orElse (fun _ => strOf b)

/-- `pickStr` over three keys. -/
def pickStr3 (a b c : Option String) : Option String :=
  (strOf a).orElse (fun _ => pickStr2 b c)

/-- A `/player/search` candidate record. -/
structure Candidate where
  name : Option String := none
  player : Option String := none
  team : Option String := none
  school : Option String := none
deriving DecidableEq, Repr

/-- A player-usage record. -/
structure UsageRec where
  player : Option String := none
  name : Option String := none
  usg_overall : Option JSNum := none
  usage_overall : Option JSNum := none
  usage : Option JSNum := none
  usageOverall : Option JSNum := none
  snap_counts : Option (List JSNum) := none
  snaps : Option JSNum := none
  snap_count : Option JSNum := none
  totalSnaps : Option JSNum := none
deriving DecidableEq, Repr

/-- A roster record. -/
structure RosterRec where
  name : Option String := none
  player : Option String := none
  hometown : Option String := none
  home_town : Option String := none
  city : Option String := none
deriving DecidableEq, Repr

/-- A recruiting record. -/
structure RecruitRec where
  name : Option String := none
  player : Option String := none
  rating : Option JSNum := none
  rank : Option JSNum := none
  overall : Option JSNum := none
  stars : Option JSNum := none
deriving DecidableEq, Repr

/-- The `total` sub-object of a season record. -/
structure TotalRec where
  wins : Option JSNum := none
  losses : Option JSNum := none
  games : Option JSNum := none
deriving DecidableEq, Repr

/-- A team season record. -/
structure RecordsRec where
  season : Option Int := none
  yr : Option Int := none
  team : Option String := none
  total : Option TotalRec := none
  total_wins : Option JSNum := none
  total_losses : Option JSNum := none
  total_games : Option JSNum := none
  wins : Option JSNum := none
  losses : Option JSNum := none
  games : Option JSNum := none
deriving DecidableEq, Repr

/-- A game result record. -/
structure GameRec where
  home_team : Option String := none
  away_team : Option String := none
  home_points : Option JSNum := none
  away_points : Option JSNum := none
deriving DecidableEq, Repr

/-- The data the five remote reads return for one aggregation call. -/
structure Api where
  search : List Candidate := []
  usage : List UsageRec := []
  roster : List RosterRec := []
  recruiting : List RecruitRec := []
  records : List RecordsRec := []
  games : List GameRec := []
deriving DecidableEq, Repr

/-- The result of `resolvePlayerByName`. -/
structure ResolvedPlayer where
  team : String
  name : String
deriving DecidableEq, Repr

/-- `(p.name || p.player || '')`. -/
def candName (p : Candidate) : String :=
  (firstTruthy p.name p.player).getD ""

/-- The candidate chosen by `resolvePlayerByName`: the first case-insensitive
exact name match, else the first candidate whose name contains the query. -/
def findCandidate (list : List Candidate) (playerName : String) : Option Candidate :=
  let nameLower := playerName.toLower
  match list.find? (fun p => (candName p).toLower == nameLower) with
  | some m => some m
  | none => list.find? (fun p => containsSubstr (candName p).toLower nameLower)

/-- `resolvePlayerByName` from the source: `none` for a blank name, an empty
search result, no matching candidate, or a matched candidate with falsy
`team` and `school`. -/
def resolvePlayerByName (list : List Candidate) (playerName : String) : Option ResolvedPlayer :=
  if playerName.trim = "" then none
  else if list.isEmpty then none
  else
    match findCandidate list playerName with
    | none => none
    | some m =>
      match firstTruthy m.team m.school with
      | none => none
      | some t => some { team := t, name := (firstTruthy m.name m.player).getD playerName }

/-- `String(r.season ?? r.year ?? '')`. -/
def seasonKey : Option Int → Option Int → String
  | some n, _ => toString n
  | none, some n => toString n
  | none, none => ""

/-- `findTeamRecord` from the source. -/
def findTeamRecord (records : List RecordsRec) (year : Int) (team : String) : Option RecordsRec :=
  match records.find? (fun r =>
      seasonKey r.season r.yr == toString year
      && (r.team == some team || !(strTruthy r.team))) with
  | some r => some r
  | none => records.find? (fun r => r.team == some team)

/-- `a || b` over JS numbers (NaN and 0 falsy). -/
def jsOrNum (a b : JSNum) : JSNum := if jtruthy a then a else b

/-- `a > b` where either side may be `undefined` (false then, as NaN). -/
def jgtO (a b : Option JSNum) : Bool :=
  match a, b with
  | some x, some y => jgt x y
  | _, _ => false

/-- Win rate from individual games: the fallback of `getWinRate`. -/
def gamesWinRate (api : Api) (team : String) : JSNum :=
  let wins := (api.games.filter (fun g =>
    if g.home_team == some team
    then jgtO g.home_points g.away_points
    else jgtO g.away_points g.home_points)).length
  if 0 < api.games.length then num ((wins : ℚ) / (api.games.length : ℚ)) else num (1/2)

/-- `getWinRate` from the source. The `games` expression reproduces the
source's operator precedence: the `??`-chain (with the trailing
`losses != null` comparison) is the ternary's condition, and the ternary's
true branch is `wins + losses` regardless of the games count. -/
def getWinRate (api : Api) (year : Int) (team : String) : JSNum :=
  match findTeamRecord api.records year team with
  | some season =>
    let wins := ((season.total.bind TotalRec.wins).orElse (fun _ => season.wins)).getD (num 0)
    let cond : Bool :=
      match (season.total.bind TotalRec.games).orElse (fun _ => season.games) with
      | some v => jtruthy v
      | none => (season.total.bind TotalRec.losses).isSome
    let games :=
      if cond
      then jadd wins
        (((season.total.bind TotalRec.losses).orElse (fun _ => season.losses)).getD (num 0))
      else num 0
    if jgt games (num 0) then jdiv wins games else gamesWinRate api team
  | none => gamesWinRate api team

/-- The `(wins, losses, games)` probes of the first win-rate derivation:
`rec = season.total ?? season`, then `rec.total_wins ?? rec.wins ??
total?.wins ?? 0` and its siblings, collapsed per the two possible shapes
of `rec`. -/
def recTriple (season : RecordsRec) : Option JSNum × Option JSNum × Option JSNum :=
  match season.total with
  | some t => (t.wins, t.losses, t.games)
  | none => ((season.total_wins).orElse (fun _ => season.wins),
             (season.total_losses).orElse (fun _ => season.losses),
             (season.total_games).orElse (fun _ => season.games))

/-- The first win-rate derivation in `aggregatePlayerInput` (before the
`getWinRate` retry): 0.5 unless a season record yields `games > 0`. -/
def winRatePhase1 (api : Api) (year : Int) (team : String) : JSNum :=
  if api.records.isEmpty then num (1/2)
  else
    match findTeamRecord api.records year team with
    | none => num (1/2)
    | some season =>
      let t := recTriple season
      let wins := t.1.getD (num 0)
      let losses := t.2.1.getD (num 0)
      let games := jsOrNum (t.2.2.getD (num 0)) (jsOrNum (jadd wins losses) (num 1))
      if jgt games (num 0) then jdiv wins games else num (1/2)

/-- The name-match predicate used to select player records:
exact, or substring in either direction, case-insensitive. -/
def nameMatches (recName : Option String) (nameLower : String) : Bool :=
  let n := (recName.getD "").toLower
  n == nameLower || containsSubstr n nameLower || containsSubstr nameLower n

/-- Record selection per source: find by name when a player name is truthy,
else (or when nothing matches) fall back to the first record. -/
def selectRec {α : Type} (list : List α) (pName : Option String) (keyOf : α → Option String) :
    Option α :=
  let found := if strTruthy pName
    then list.find? (fun p => nameMatches (keyOf p) ((pName.getD "").toLower))
    else none
  match found with
  | some r => some r
  | none => list.head?

/-- `arr.reduce((a, b) => a + (Number(b) || 0), 0)`. -/
def snapTotal (arr : List JSNum) : ℚ :=
  arr.foldl (fun a b => a + (match b with | num q => q | nan => 0)) 0

/-- The `playingTime` / `snapsPlayed` derivation from the selected usage
record: explicit usage percentage (rescaled when > 1), else summed snap
counts against a 70 × 12 snap season, else the explicit snap-count keys. -/
def usageDerived (playerUsage : Option UsageRec) : Option ℚ × Option ℚ :=
  match playerUsage with
  | none => (none, none)
  | some pu =>
    let pt0 := pickNum4 pu.usg_overall pu.usage_overall pu.usage pu.usageOverall
    let pt1 := pt0.map (fun q => if 1 < q then q / 100 else q)
    match pt1 with
    | some q => (some q, pickNum3 pu.snaps pu.snap_count pu.totalSnaps)
    | none =>
      match pu.snap_counts with
      | some arr => (some (min 1 (snapTotal arr / (70 * 12))), some (snapTotal arr))
      | none => (none, pickNum3 pu.snaps pu.snap_count pu.totalSnaps)

/-- `normalizeRecruitingRating` from the source. -/
def normalizeRecruitingRating (rating : Option JSNum) : Option ℚ :=
  match rating with
  | some (num r) =>
    some (if r ≤ 1 then r
          else if r ≤ 5 then r / 5
          else if r ≤ 100 then r / 100
          else if r ≤ 255 then r / 255
          else min 1 (r / 300))
  | _ => none

/-- The recruiting-rank derivation from the selected recruiting record. -/
def recruitingDerived (pr : Option RecruitRec) : Option ℚ :=
  match pr with
  | none => none
  | some p =>
    normalizeRecruitingRating
      (((pickNum3 p.rating p.rank p.overall).map num).orElse
        (fun _ => p.stars.map (fun s => jdiv s (num 5))))

/-- `STATE_DISTANCE_APPROXIMATE_MILES`. -/
def STATE_DISTANCE_APPROXIMATE_MILES : ℚ := 800

/-- The `TEAM_STATE` lookup table from the source. -/
def TEAM_STATE : List (String × String) :=
  [("Ohio State", "OH"), ("Michigan", "MI"), ("Alabama", "AL"), ("Georgia", "GA"),
   ("Texas", "TX"), ("Oklahoma", "OK"), ("Clemson", "SC"), ("Florida State", "FL"),
   ("Florida", "FL"), ("LSU", "LA"), ("Penn State", "PA"), ("Notre Dame", "IN"),
   ("Tennessee", "TN"), ("USC", "CA"), ("Oregon", "OR"), ("Washington", "WA"),
   ("Texas A&M", "TX"), ("Auburn", "AL"), ("Miami", "FL"), ("Nebraska", "NE"),
   ("Iowa", "IA"), ("Wisconsin", "WI"), ("Michigan State", "MI"), ("Kentucky", "KY"),
   ("South Carolina", "SC"), ("Arkansas", "AR"), ("Ole Miss", "MS"), ("Mississippi State", "MS"),
   ("Missouri", "MO"), ("North Carolina", "NC"), ("Virginia Tech", "VA"), ("West Virginia", "WV"),
   ("California", "CA"), ("Stanford", "CA"), ("UCLA", "CA"), ("Arizona", "AZ"),
   ("Arizona State", "AZ"), ("Utah", "UT"), ("Colorado", "CO"), ("Kansas", "KS"),
   ("Kansas State", "KS"), ("Oklahoma State", "OK"), ("Baylor", "TX"), ("TCU", "TX"),
   ("Texas Tech", "TX"), ("Houston", "TX"), ("SMU", "TX"), ("Tulane", "LA"),
   ("Maryland", "MD"), ("Rutgers", "NJ"), ("Indiana", "IN"), ("Purdue", "IN"),
   ("Illinois", "IL"), ("Northwestern", "IL"), ("Minnesota", "MN")]

/-- `inferTeamState`. -/
def inferTeamState (team : String) : Option String :=
  (TEAM_STATE.find? (fun p => p.1 == team)).map Prod.snd

/-- `hometown.split(',').pop()?.trim()?.slice(0, 2) || ''`. -/
def hometownState (hometown : String) : String :=
  (((hometown.splitOn ",").getLastD "").trim).take 2

/-- The distance heuristic: 100 miles on an exact state match, else the
approximate cross-state constant; nothing without a hometown. -/
def deriveDistance (team : String) (playerRoster : Option RosterRec) : Option JSNum :=
  match playerRoster with
  | none => none
  | some rr =>
    match pickStr3 rr.hometown rr.home_town rr.city with
    | none => none
    | some hometown =>
      let hs := hometownState hometown
      match inferTeamState team with
      | some ts =>
        if hs ≠ "" && ts.toUpper == hs.toUpper
        then some (num 100) else some (num STATE_DISTANCE_APPROXIMATE_MILES)
      | none => some (num STATE_DISTANCE_APPROXIMATE_MILES)

/-- The aggregation options (`opts`). The last four fields are accepted by
the claims' vocabulary as manual overrides, but the source destructures
only `year, team, playerName, distanceFromHighSchoolMiles, nilScore,
socialSentiment` and never reads the rest. -/
structure AggOpts where
  year : Int := 2024
  team : Option String := none
  playerName : Option String := none
  distanceFromHighSchoolMiles : Option JSNum := none
  nilScore : Option JSNum := none
  socialSentiment : Option JSNum := none
  playingTime : Option JSNum := none
  teamWinRate : Option JSNum := none
  recruitingRank : Option JSNum := none
  snapsPlayed : Option JSNum := none

/-- The signal record `aggregatePlayerInput` returns (`_meta` fields kept
separate from the scoring fields). -/
structure AggOut where
  playingTime : Option ℚ := none
  distanceFromHighSchoolMiles : Option JSNum := none
  recruitingRank : Option ℚ := none
  teamWinRate : JSNum := num (1/2)
  nilScore : Option JSNum := none
  snapsPlayed : Option ℚ := none
  socialSentiment : Option JSNum := none
  metaPlayerName : Option String := none
  metaTeam : String := ""
  metaYear : Int := 0
deriving DecidableEq, Repr

/-- The two fatal error kinds at the aggregator boundary: the
`'Provide either a player name or a team (or both).'` throw (InputError)
and the `'No player found for ...'` throw (ResolutionError). -/
inductive AggError where
  | inputError
  | resolutionError
deriving DecidableEq, Repr

/-- The success path of `aggregatePlayerInput` after the team check, for
the (possibly resolution-updated) `team` and `playerName`. -/
def buildSignal (api : Api) (opts : AggOpts) (team : String) (pName : Option String) : AggOut :=
  let winRate0 := winRatePhase1 api opts.year team
  let winRate := if winRate0 = num (1/2) then getWinRate api opts.year team else winRate0
  let playerUsage := selectRec api.usage pName (fun p => pickStr2 p.player p.name)
  let playerRecruiting := selectRec api.recruiting pName (fun p => pickStr2 p.name p.player)
  let playerRoster := selectRec api.roster pName (fun p => pickStr2 p.name p.player)
  let pt := usageDerived playerUsage
  let recruitingRank := recruitingDerived playerRecruiting
  let distance :=
    match opts.distanceFromHighSchoolMiles with
    | some d => some d
    | none => deriveDistance team playerRoster
  let displayName :=
    ((playerUsage.bind (fun pu => pickStr2 pu.player pu.name)).orElse
      (fun _ => playerRoster.bind (fun rr => pickStr2 rr.name rr.player))).orElse
      (fun _ => pName)
  { playingTime := pt.1,
    distanceFromHighSchoolMiles := distance,
    recruitingRank := recruitingRank,
    teamWinRate := winRate,
    nilScore := opts.nilScore,
    snapsPlayed := pt.2,
    socialSentiment := opts.socialSentiment,
    metaPlayerName := displayName,
    metaTeam := team,
    metaYear := opts.year }

/-- `aggregatePlayerInput` from the source: resolve the team from the
player name when no team is given, then check the team, then build the
signal record from the fetched data. -/
def aggregatePlayerInput (api : Api) (opts : AggOpts) : Except AggError AggOut :=
  if strBlank opts.team && strTruthy opts.playerName then
    match resolvePlayerByName api.search (opts.playerName.getD "") with
    | none => .error .resolutionError
    | some r =>
      if strBlank (some r.team) then .error .inputError
      else .ok (buildSignal api opts r.team (some r.name))
  else if strBlank opts.team then .error .inputError
  else .ok (buildSignal api opts (opts.team.getD "") opts.playerName)

/-!
### C8: the aggregator's error discipline
-/

instance : DecidableEq (Except AggError AggOut) := fun x y =>
  match x, y with
  | .error a, .error b =>
    if h : a = b then isTrue (by rw [h]) else isFalse (by simp [h])
  | .ok a, .ok b =>
    if h : a = b then isTrue (by rw [h]) else isFalse (by simp [h])
  | .error _, .ok _ => isFalse (by simp)
  | .ok _, .error _ => isFalse (by simp)

/-- Whenever the aggregator succeeds, its output is the success-path record
for some team and player name. -/
theorem aggregate_ok_shape (api : Api) (opts : AggOpts) (out : AggOut)
    (h : aggregatePlayerInput api opts = .ok out) :
    ∃ team pn, out = buildSignal api opts team pn := by
  unfold aggregatePlayerInput at h
  split at h
  · split at h
    · cases h
    · split at h
      · cases h
      · exact ⟨_, _, (Except.ok.inj h).symm⟩
  · split at h
    · cases h
    · exact ⟨_, _, (Except.ok.inj h).symm⟩

/-- C8, counterexample. With a blank team, player name `"john doe"`, and a
search result whose only candidate carries the whitespace-only team `" "`,
resolution succeeds (the truthy `" "` counts as a team affiliation), but the
subsequent team check rejects the blank resolved team and the aggregator
fails with InputError — although a player name was supplied, contradicting
"InputError exactly when neither a team nor a player name is supplied". -/
theorem claim8_cex_whitespace_team_affiliation :
    aggregatePlayerInput { search := [{ name := some "john doe", team := some " " }] }
        { playerName := some "john doe" } = .error .inputError
    ∧ strTruthy (some "john doe") = true := by
  constructor
  · with_unfolding_all decide
  · decide

/-- C8, amended. With the source's notions of "supplied" (truthy) and
"blank" (empty after trimming): ResolutionError occurs exactly when the
team is blank, the player name is truthy and `resolvePlayerByName` yields
nothing; InputError occurs exactly when the team is blank and either the
player name is falsy, or resolution yields a candidate whose team string is
whitespace-only (which the team check then rejects as missing). Resolution
yields nothing exactly when the name is blank, the search result is empty
or matches no candidate, or the matched candidate carries no truthy
team/school. Both failures are surfaced as errors (no record is returned,
so no guessed team is ever used). -/
theorem claim8_amended_error_discipline (api : Api) (opts : AggOpts) :
    (aggregatePlayerInput api opts = .error .resolutionError ↔
      (strBlank opts.team = true ∧ strTruthy opts.playerName = true ∧
       resolvePlayerByName api.search (opts.playerName.getD "") = none))
    ∧ (aggregatePlayerInput api opts = .error .inputError ↔
      ((strBlank opts.team = true ∧ strTruthy opts.playerName = false) ∨
       (strBlank opts.team = true ∧ strTruthy opts.playerName = true ∧
        ∃ r, resolvePlayerByName api.search (opts.playerName.getD "") = some r ∧
          r.team.trim = "")))
    ∧ (∀ n : String, resolvePlayerByName api.search n = none ↔
        (n.trim = "" ∨ api.search = [] ∨ findCandidate api.search n = none ∨
         ∃ m, findCandidate api.search n = some m ∧ firstTruthy m.team m.school = none)) := by
  refine ⟨?_, ?_, ?_⟩
  · cases hb : strBlank opts.team <;> cases ht : strTruthy opts.playerName <;>
      simp only [aggregatePlayerInput, hb, ht, Bool.and_self, Bool.and_true, Bool.and_false,
        Bool.false_and, Bool.true_and, if_true, if_false, Bool.true_eq_false, Bool.false_eq_true]
    · simp
    · simp
    · simp
    · cases hres : resolvePlayerByName api.search (opts.playerName.getD "") with
      | none => simp [hres]
      | some r =>
        by_cases hrt : r.team.trim = "" <;> simp [strBlank, hrt]
  · cases hb : strBlank opts.team <;> cases ht : strTruthy opts.playerName <;>
      simp only [aggregatePlayerInput, hb, ht, Bool.and_self, Bool.and_true, Bool.and_false,
        Bool.false_and, Bool.true_and, if_true, if_false, Bool.true_eq_false, Bool.false_eq_true]
    · simp
    · simp
    · simp
    · cases hres : resolvePlayerByName api.search (opts.playerName.getD "") with
      | none => simp [hres]
      | some r =>
        by_cases hrt : r.team.trim = "" <;> simp [strBlank, hrt]
  · intro n
    unfold resolvePlayerByName
    by_cases h1 : n.trim = ""
    · simp [h1]
    · rw [if_neg h1]
      by_cases h2 : api.search.isEmpty
      · simp [h2, List.isEmpty_iff.1 h2, h1]
      · rw [if_neg h2]
        have hne : ¬ api.search = [] := fun hc => h2 (by simp [hc])
        cases h3 : findCandidate api.search n with
        | none => simp [h1, hne, h3]
        | some m =>
          cases h4 : firstTruthy m.team m.school with
          | none => simp [h1, hne, h3, h4]
          | some t => simp [h1, hne, h3, h4]

/-!
### C9: manual overrides at the aggregator
-/

/-- The API data of the C9 scenario: one usage record with a 10% usage
rate and nothing else. -/
def api9 : Api := { usage := [{ player := some "a", usg_overall := some (num (1/10)) }] }

/-- The C9 options: a team plus explicit overrides for all seven claimed
fields (the four the aggregator ignores among them). -/
def opts9 : AggOpts :=
  { team := some "Alabama",
    distanceFromHighSchoolMiles := some (num 900),
    nilScore := some (num (3/10)),
    socialSentiment := some (num (7/10)),
    playingTime := some (num (9/10)),
    teamWinRate := some (num (9/10)),
    recruitingRank := some (num (99/100)),
    snapsPlayed := some (num 500) }

/-- What the aggregator actually returns for `api9`/`opts9`. -/
def out9 : AggOut :=
  { playingTime := some (1/10),
    distanceFromHighSchoolMiles := some (num 900),
    recruitingRank := none,
    teamWinRate := num (1/2),
    nilScore := some (num (3/10)),
    snapsPlayed := none,
    socialSentiment := some (num (7/10)),
    metaPlayerName := some "a",
    metaTeam := "Alabama",
    metaYear := 2024 }

/-- C9, counterexample. Explicit `playingTime`, `teamWinRate`,
`recruitingRank` and `snapsPlayed` overrides in the options do NOT take
precedence: the aggregator never reads them, and the returned record
carries the derived values (usage 0.1, neutral win rate, no recruiting
rank, no snaps) instead of the overrides. -/
theorem claim9_cex_overrides_ignored :
    aggregatePlayerInput api9 opts9 = .ok out9
    ∧ opts9.playingTime = some (num (9/10)) ∧ out9.playingTime = some (1/10)
    ∧ ((1:ℚ)/10 ≠ 9/10)
    ∧ opts9.teamWinRate = some (num (9/10)) ∧ out9.teamWinRate = num (1/2)
    ∧ opts9.recruitingRank = some (num (99/100)) ∧ out9.recruitingRank = none
    ∧ opts9.snapsPlayed = some (num 500) ∧ out9.snapsPlayed = none := by
  refine ⟨?_, rfl, rfl, by norm_num, rfl, rfl, rfl, rfl, rfl, rfl⟩
  set_option maxRecDepth 8192 in with_unfolding_all decide

/-- C9, amended. Only the three destructured overrides are honored by the
Aggregator: the returned record's `nilScore` and `socialSentiment` always
equal the options' values, and a present `distanceFromHighSchoolMiles`
override is returned unchanged; the `playingTime`, `teamWinRate`,
`recruitingRank` and `snapsPlayed` options are ignored — the whole result
is independent of them. (The HTTP layer, out of the Aggregator's scope,
separately re-merges raw body fields over the aggregated record.) -/
theorem claim9_amended_override_semantics (api : Api) (opts : AggOpts) (out : AggOut)
    (v1 v2 v3 v4 : Option JSNum) (h : aggregatePlayerInput api opts = .ok out) :
    aggregatePlayerInput api
        {opts with playingTime := v1, teamWinRate := v2,
                   recruitingRank := v3, snapsPlayed := v4}
      = aggregatePlayerInput api opts
    ∧ out.nilScore = opts.nilScore
    ∧ out.socialSentiment = opts.socialSentiment
    ∧ (∀ d, opts.distanceFromHighSchoolMiles = some d →
        out.distanceFromHighSchoolMiles = some d) := by
  obtain ⟨t, p, rfl⟩ := aggregate_ok_shape api opts out h
  refine ⟨rfl, rfl, rfl, ?_⟩
  intro d hd
  show (buildSignal api opts t p).distanceFromHighSchoolMiles = some d
  simp [buildSignal, hd]

theorem claim9_witness :
    aggregatePlayerInput api9 opts9 = .ok out9
    ∧ aggregatePlayerInput api9
        {opts9 with playingTime := none, teamWinRate := none,
                    recruitingRank := none, snapsPlayed := none}
      = aggregatePlayerInput api9 opts9
    ∧ out9.nilScore = opts9.nilScore
    ∧ out9.socialSentiment = opts9.socialSentiment
    ∧ out9.distanceFromHighSchoolMiles = some (num 900) := by
  have h : aggregatePlayerInput api9 opts9 = .ok out9 := by
    set_option maxRecDepth 8192 in with_unfolding_all decide
  have c := claim9_amended_override_semantics api9 opts9 out9 none none none none h
  exact ⟨h, c.1, c.2.1, c.2.2.1, c.2.2.2 (num 900) rfl⟩

end CFB
